import Mathlib

/-!
Shallow embedding of the py-trello client (trelloclient.py, attachment.py,
attachmentpreview.py) and proofs about its external contract.

JSON values are modelled by `JValue`, Python exceptions by `PyErr`, the HTTP
transport by a function from requests to responses, and each client method by
a pure Lean function that returns the method's result (or the raised
exception), the list of HTTP requests it issued, and the client object after
the call.
-/

namespace Trello

/-- Parsed JSON values, as produced by `response.json()` and consumed by the
`from_json` factories. Objects are association lists in key order. -/
inductive JValue where
  | null : JValue
  | bool : Bool → JValue
  | num : Int → JValue
  | str : String → JValue
  | arr : List JValue → JValue
  | obj : List (String × JValue) → JValue

/-- An HTTP response as seen through the `requests` library: status code,
body text, and the body parsed as JSON. -/
structure HttpResponse where
  status_code : Nat
  text : String
  json : JValue

/-- Python exceptions that the embedded code can raise. `unauthorized` and
`resourceUnavailable` carry the message built by `fetch_json` and the raw
response, as in trello.exceptions. -/
inductive PyErr where
  | unauthorized : String → HttpResponse → PyErr
  | resourceUnavailable : String → HttpResponse → PyErr
  | tokenError : String → PyErr
  | keyError : String → PyErr
  | typeError : PyErr
  | attributeError : String → PyErr
  | indexError : PyErr
  | notImplementedError : PyErr

/-- Dictionary item access `j[k]`: KeyError when the key is missing,
TypeError when the value is not a dict. -/
def JValue.item (j : JValue) (k : String) : Except PyErr JValue :=
  match j with
  | .obj kvs =>
    match kvs.lookup k with
    | some v => Except.ok v
    | none => Except.error (PyErr.keyError k)
  | _ => Except.error PyErr.typeError

/-- Optional dictionary lookup, for stating properties about payloads. -/
def JValue.get (j : JValue) (k : String) : Option JValue :=
  match j with
  | .obj kvs => kvs.lookup k
  | _ => none

/-- The `OAuth1` signing object from requests_oauthlib, as constructed in
`TrelloClient.__init__`. -/
structure OAuth1 where
  client_key : Option String
  client_secret : Option String
  resource_owner_key : Option String
  resource_owner_secret : Option String
  deriving DecidableEq

/-- Python truthiness of an optional string: `None` and `""` are falsy. -/
def pyTruthy : Option String → Bool
  | none => false
  | some s => !s.isEmpty

/-- Python `a or b` on optional strings: `b` when `a` is falsy. -/
def pyOr (a b : Option String) : Option String :=
  if pyTruthy a then a else b

/-- The body passed as `data` to `requests.request` / `requests.post`:
nothing, a JSON string, or a form dict. -/
inductive ReqData where
  | noData : ReqData
  | str : String → ReqData
  | form : List (String × JValue) → ReqData

/-- An outbound HTTP request as handed to the `requests` library. -/
structure HttpRequest where
  http_method : String
  url : String
  params : List (String × String)
  headers : List (String × String)
  data : ReqData
  files : Option (List (String × String))
  auth : Option OAuth1

/-- The `TrelloClient` instance state: the credential attributes set in
`__init__` plus `all_info`, which `info_for_all_boards` assigns. -/
structure TrelloClient where
  oauth : Option OAuth1
  public_only : Bool
  api_key : Option String
  api_secret : Option String
  resource_owner_key : Option String
  resource_owner_secret : Option String
  all_info : Option JValue

/-- Constructor `TrelloClient.__init__(api_key, api_secret, token,
token_secret)`: attaches an OAuth1 object when `api_key or token` is truthy,
and sets `public_only` to `token is None`. -/
def TrelloClient.init (api_key api_secret token token_secret : Option String) :
    TrelloClient :=
  { oauth :=
      if pyTruthy api_key || pyTruthy token then
        some { client_key := api_key, client_secret := api_secret,
               resource_owner_key := token, resource_owner_secret := token_secret }
      else none
    public_only := token.isNone
    api_key := api_key
    api_secret := api_secret
    resource_owner_key := token
    resource_owner_secret := token_secret
    all_info := none }

/-- Python dict read on an association list. -/
def dictGet (d : List (String × String)) (k : String) : Option String :=
  d.lookup k

/-- Python dict write `d[k] = v`: overwrite in place when the key exists,
append otherwise. -/
def dictSet (d : List (String × String)) (k v : String) :
    List (String × String) :=
  if d.any (fun p => p.1 == k) then
    d.map (fun p => if p.1 == k then (k, v) else p)
  else d ++ [(k, v)]

/-- Escaping of one character inside a JSON string literal. -/
def json_escape_char (c : Char) : String :=
  if c = '\\' then "\\\\"
  else if c = '\"' then "\\\""
  else String.singleton c

/-- Escaping of a JSON string literal body. -/
def json_escape (s : String) : String :=
  String.join (s.toList.map json_escape_char)

mutual

/-- Model of `json.dumps` with its default separators. -/
def json_dumps : JValue → String
  | .null => "null"
  | .bool true => "true"
  | .bool false => "false"
  | .num n => toString n
  | .str s => "\"" ++ json_escape s ++ "\""
  | .arr xs => "[" ++ json_dumps_arr xs ++ "]"
  | .obj kvs => "\x7b" ++ json_dumps_obj kvs ++ "\x7d"

/-- Comma-separated serialization of an array body. -/
def json_dumps_arr : List JValue → String
  | [] => ""
  | [x] => json_dumps x
  | x :: y :: rest => json_dumps x ++ ", " ++ json_dumps_arr (y :: rest)

/-- Comma-separated serialization of an object body. -/
def json_dumps_obj : List (String × JValue) → String
  | [] => ""
  | [(k, v)] => "\"" ++ json_escape k ++ "\": " ++ json_dumps v
  | (k, v) :: p :: rest =>
    "\"" ++ json_escape k ++ "\": " ++ json_dumps v ++ ", " ++
      json_dumps_obj (p :: rest)

end

/-- Python truthiness of the `files` argument: `None` and an empty dict are
falsy. -/
def filesTruthy : Option (List (String × String)) → Bool
  | none => false
  | some fs => !fs.isEmpty

/-- The `fetch_json` condition `http_method in ("POST", "PUT", "DELETE") and
not files` guarding the Content-Type header. -/
def contentTypeCondition (http_method : String)
    (files : Option (List (String × String))) : Bool :=
  (http_method == "POST" || http_method == "PUT" || http_method == "DELETE")
    && !filesTruthy files

/-- Request construction performed by `fetch_json` before the HTTP call:
JSON body unless `files` is given, Content-Type for non-upload POST/PUT/
DELETE, Accept always, leading slash stripped from the path, fixed base URL.
Raises IndexError on an empty path (`uri_path[0]`). -/
def fetch_request (c : TrelloClient) (uri_path http_method : String)
    (headers query_params : List (String × String))
    (post_args : List (String × JValue))
    (files : Option (List (String × String))) : Except PyErr HttpRequest :=
  let data : ReqData :=
    match files with
    | none => ReqData.str (json_dumps (JValue.obj post_args))
    | some _ => ReqData.noData
  let headers1 :=
    if contentTypeCondition http_method files then
      dictSet headers "Content-Type" "application/json; charset=utf-8"
    else headers
  let headers2 := dictSet headers1 "Accept" "application/json"
  match uri_path.data with
  | [] => Except.error PyErr.indexError
  | ch :: rest =>
    let path := if ch = '/' then String.mk rest else uri_path
    Except.ok
      { http_method := http_method
        url := "https://api.trello.com/1/" ++ path
        params := query_params
        headers := headers2
        data := data
        files := files
        auth := c.oauth }

/-- Outcome of a client method: the returned value or raised exception, the
HTTP requests issued (in order), and the client object afterwards. -/
structure OpResult (α : Type) where
  result : Except PyErr α
  trace : List HttpRequest
  client : TrelloClient

/-- Method `TrelloClient.fetch_json`: build the request, issue it through the
transport, raise `Unauthorized` on 401 and `ResourceUnavailable` on any other
non-200 status, and return the parsed JSON body on 200. -/
def fetch_json (c : TrelloClient) (transport : HttpRequest → HttpResponse)
    (uri_path http_method : String)
    (headers query_params : List (String × String))
    (post_args : List (String × JValue))
    (files : Option (List (String × String))) : OpResult JValue :=
  match fetch_request c uri_path http_method headers query_params post_args files with
  | .error e => ⟨Except.error e, [], c⟩
  | .ok req =>
    let response := transport req
    if response.status_code = 401 then
      ⟨Except.error (PyErr.unauthorized (response.text ++ " at " ++ req.url) response),
        [req], c⟩
    else if response.status_code ≠ 200 then
      ⟨Except.error (PyErr.resourceUnavailable (response.text ++ " at " ++ req.url) response),
        [req], c⟩
    else ⟨Except.ok response.json, [req], c⟩

/-- Client used by concrete witnesses. -/
def wClient : TrelloClient := TrelloClient.init (some "key") none (some "tok") none

/-- Transport used by the C1 witness: always answers 401. -/
def wTransport401 : HttpRequest → HttpResponse :=
  fun _ => ⟨401, "denied", JValue.null⟩

/-- Request built by `fetch_json wClient _ "/cards/c1" "GET" [] [] [] none`. -/
def wReq : HttpRequest :=
  { http_method := "GET"
    url := "https://api.trello.com/1/cards/c1"
    params := []
    headers := [("Accept", "application/json")]
    data := ReqData.str "\x7b\x7d"
    files := none
    auth := wClient.oauth }

/-- String extraction, as used where the code concatenates a JSON value onto
a string literal: any non-string raises TypeError. -/
def JValue.asStr : JValue → Except PyErr String
  | .str s => Except.ok s
  | _ => Except.error PyErr.typeError

/-- The value stored when Python code saves an optional string argument in an
object attribute: None is rendered as null. -/
def optStrVal : Option String → JValue
  | none => JValue.null
  | some s => JValue.str s

/-- Modelled from the spec: `Board` (trello/board.py is not under src/) is a
passive holder built by `Board.from_json(trello_client, json_obj)` with a
back-reference to the client and its fields copied verbatim from the payload
(notably `id`). -/
structure Board where
  client : TrelloClient
  id : JValue
  json : JValue

/-- Modelled from the spec: the `Board.from_json` factory. -/
def Board.from_json (c : TrelloClient) (json_obj : JValue) :
    Except PyErr Board := do
  let i ← json_obj.item "id"
  Except.ok ⟨c, i, json_obj⟩

/-- Modelled from the spec: `List` (trello/trellolist.py is not under src/),
renamed `TrelloList` to avoid the Lean builtin; a passive holder built by
`List.from_json(board, json_obj)` with a back-reference to its board. -/
structure TrelloList where
  board : Board
  id : JValue
  json : JValue

/-- Modelled from the spec: the `List.from_json` factory. -/
def TrelloList.from_json (board : Board) (json_obj : JValue) :
    Except PyErr TrelloList := do
  let i ← json_obj.item "id"
  Except.ok ⟨board, i, json_obj⟩

/-- Modelled from the spec: `Card` (trello/card.py is not under src/), a
passive holder built by `Card.from_json(parent_list, json_obj)` with a
back-reference to its list. -/
structure Card where
  tlist : TrelloList
  id : JValue
  json : JValue

/-- Modelled from the spec: the `Card.from_json` factory. -/
def Card.from_json (parent : TrelloList) (json_obj : JValue) :
    Except PyErr Card := do
  let i ← json_obj.item "id"
  Except.ok ⟨parent, i, json_obj⟩

/-- Modelled from the spec: `Organization` (trello/organization.py is not
under src/), a passive holder with a back-reference to the client. -/
structure Organization where
  client : TrelloClient
  id : JValue
  json : JValue

/-- Modelled from the spec: the `Organization.from_json` factory. -/
def Organization.from_json (c : TrelloClient) (json_obj : JValue) :
    Except PyErr Organization := do
  let i ← json_obj.item "id"
  Except.ok ⟨c, i, json_obj⟩

/-- Modelled from the spec: `Member` (trello/member.py is not under src/);
`Member(client, member_id).fetch()` issues one fetch of the member resource
and wraps the payload. -/
structure Member where
  client : TrelloClient
  member_id : String
  json : JValue

/-- Modelled from the spec: `Label` (trello/label.py is not under src/), a
passive holder built by `Label.from_json(board, json_obj)` with a
back-reference to its parent board. -/
structure Label where
  board : Board
  id : JValue
  json : JValue

/-- Modelled from the spec: the `Label.from_json` factory. -/
def Label.from_json (b : Board) (json_obj : JValue) : Except PyErr Label := do
  let i ← json_obj.item "id"
  Except.ok ⟨b, i, json_obj⟩

/-- Modelled from the spec: `WebHook(client, token, hook_id, desc, id_model,
callback_url, active)` (trello/webhook.py is not under src/), a passive
holder of exactly those fields. -/
structure WebHook where
  client : TrelloClient
  token : Option String
  hook_id : JValue
  desc : JValue
  id_model : JValue
  callback_url : JValue
  active : JValue

/-- Return value of `create_hook`: either the created WebHook or the literal
`False` the method returns on a non-200 status. -/
inductive HookResult where
  | hook : WebHook → HookResult
  | falseSentinel : HookResult

/-- Sequencing of client operations: propagate a raised exception, otherwise
run the continuation on the updated client and append its request trace. -/
def OpResult.then (r : OpResult α) (f : TrelloClient → α → OpResult β) :
    OpResult β :=
  match r.result with
  | .error e => ⟨Except.error e, r.trace, r.client⟩
  | .ok a =>
    let s := f r.client a
    ⟨s.result, r.trace ++ s.trace, s.client⟩

/-- A step that issues no HTTP request: returns or raises on the spot. -/
def OpResult.done (c : TrelloClient) (x : Except PyErr α) : OpResult α :=
  ⟨x, [], c⟩

/-- Method `TrelloClient.get_board`: fetch `/boards/<id>` and wrap it. -/
def get_board (c : TrelloClient) (transport : HttpRequest → HttpResponse)
    (board_id : String) : OpResult Board :=
  (fetch_json c transport ("/boards/" ++ board_id) "GET" [] [] [] none).then
    fun c1 obj => OpResult.done c1 (Board.from_json c1 obj)

/-- Method `TrelloClient.get_card`: fetch the card, then the list named by
the card's `idList`, then the board named by the card's `idBoard` (via
`get_board`), and wrap them into `Card.from_json(List.from_json(board,
list_json), card_json)`. -/
def get_card (c : TrelloClient) (transport : HttpRequest → HttpResponse)
    (card_id : String) : OpResult Card :=
  (fetch_json c transport ("/cards/" ++ card_id) "GET" [] [] [] none).then
    fun c1 card_json =>
      (OpResult.done c1 (card_json.item "idList" >>= JValue.asStr)).then
        fun c2 idList =>
          (fetch_json c2 transport ("/lists/" ++ idList) "GET" [] [] [] none).then
            fun c3 list_json =>
              (OpResult.done c3 (card_json.item "idBoard" >>= JValue.asStr)).then
                fun c4 idBoard =>
                  (get_board c4 transport idBoard).then
                    fun c5 board =>
                      OpResult.done c5 (do
                        let lst ← TrelloList.from_json board list_json
                        Card.from_json lst card_json)

/-- Method `TrelloClient.get_organization`. -/
def get_organization (c : TrelloClient)
    (transport : HttpRequest → HttpResponse) (organization_id : String) :
    OpResult Organization :=
  (fetch_json c transport ("/organizations/" ++ organization_id) "GET" [] [] [] none).then
    fun c1 obj => OpResult.done c1 (Organization.from_json c1 obj)

/-- Construction of one Board per entry of a JSON array, in input order. -/
def boards_from_json_list (c : TrelloClient) :
    List JValue → Except PyErr (List Board)
  | [] => Except.ok []
  | o :: rest => do
    let b ← Board.from_json c o
    let bs ← boards_from_json_list c rest
    Except.ok (b :: bs)

/-- Construction of one Organization per entry, in input order. -/
def orgs_from_json_list (c : TrelloClient) :
    List JValue → Except PyErr (List Organization)
  | [] => Except.ok []
  | o :: rest => do
    let b ← Organization.from_json c o
    let bs ← orgs_from_json_list c rest
    Except.ok (b :: bs)

/-- Method `TrelloClient.list_boards`: fetch the user's boards through the
given filter and wrap each entry. Iterating a non-array response raises
TypeError. -/
def list_boards (c : TrelloClient) (transport : HttpRequest → HttpResponse)
    (board_filter : String) : OpResult (List Board) :=
  (fetch_json c transport ("/members/me/boards/?filter=" ++ board_filter)
      "GET" [] [] [] none).then
    fun c1 j =>
      match j with
      | .arr objs => OpResult.done c1 (boards_from_json_list c1 objs)
      | _ => OpResult.done c1 (Except.error PyErr.typeError)

/-- Method `TrelloClient.list_organizations` (note: the source passes the
path without a leading slash). -/
def list_organizations (c : TrelloClient)
    (transport : HttpRequest → HttpResponse) : OpResult (List Organization) :=
  (fetch_json c transport "members/me/organizations" "GET" [] [] [] none).then
    fun c1 j =>
      match j with
      | .arr objs => OpResult.done c1 (orgs_from_json_list c1 objs)
      | _ => OpResult.done c1 (Except.error PyErr.typeError)

/-- Method `TrelloClient.info_for_all_boards`: returns None at once in
public-only mode, otherwise fetches all board info and stores it in the
`all_info` attribute. -/
def info_for_all_boards (c : TrelloClient)
    (transport : HttpRequest → HttpResponse) (actions : String) :
    OpResult Unit :=
  if c.public_only then
    ⟨Except.ok (), [], c⟩
  else
    (fetch_json c transport "/members/me/boards/all" "GET" []
        [("actions", actions)] [] none).then
      fun c1 j => ⟨Except.ok (), [], { c1 with all_info := some j }⟩

/-- Method `TrelloClient.add_board`: POST `/boards` with the new board's
name and the optional source board id, and wrap the response. -/
def add_board (c : TrelloClient) (transport : HttpRequest → HttpResponse)
    (board_name : String) (source_board : Option Board) : OpResult Board :=
  let post_args : List (String × JValue) :=
    match source_board with
    | none => [("name", JValue.str board_name)]
    | some sb => [("name", JValue.str board_name), ("idBoardSource", sb.id)]
  (fetch_json c transport "/boards" "POST" [] [] post_args none).then
    fun c1 obj => OpResult.done c1 (Board.from_json c1 obj)

/-- Method `TrelloClient.get_member`, modelled from the spec for the missing
`Member.fetch`: one fetch of the member resource, wrapped. -/
def get_member (c : TrelloClient) (transport : HttpRequest → HttpResponse)
    (member_id : String) : OpResult Member :=
  (fetch_json c transport ("/members/" ++ member_id) "GET" [] [] [] none).then
    fun c1 j => OpResult.done c1 (Except.ok ⟨c1, member_id, j⟩)

/-- Method `TrelloClient.get_label`: fetch the parent board, then the label,
and wrap them. -/
def get_label (c : TrelloClient) (transport : HttpRequest → HttpResponse)
    (label_id board_id : String) : OpResult Label :=
  (get_board c transport board_id).then
    fun c1 board =>
      (fetch_json c1 transport ("/labels/" ++ label_id) "GET" [] [] [] none).then
        fun c2 label_json => OpResult.done c2 (Label.from_json board label_json)

/-- Method `TrelloClient.logout`: unconditionally raises
NotImplementedError. -/
def logout (c : TrelloClient) : OpResult Unit :=
  ⟨Except.error PyErr.notImplementedError, [], c⟩

/-- Construction of one WebHook from one entry of the hooks payload, reading
the `id`, `description`, `idModel`, `callbackURL` and `active` keys in the
order the source evaluates them. -/
def webhook_from_entry (c : TrelloClient) (tok : String) (hook : JValue) :
    Except PyErr WebHook := do
  let i ← hook.item "id"
  let d ← hook.item "description"
  let m ← hook.item "idModel"
  let u ← hook.item "callbackURL"
  let a ← hook.item "active"
  Except.ok { client := c, token := some tok, hook_id := i, desc := d,
              id_model := m, callback_url := u, active := a }

/-- Helper `TrelloClient._existing_hook_objs`: one WebHook per hook dict, in
input order, raising on the first malformed entry. -/
def existing_hook_objs (c : TrelloClient) (tok : String) :
    List JValue → Except PyErr (List WebHook)
  | [] => Except.ok []
  | h :: rest => do
    let w ← webhook_from_entry c tok h
    let ws ← existing_hook_objs c tok rest
    Except.ok (w :: ws)

/-- Method `TrelloClient.list_hooks`: fall back to the client's own token,
raise TokenError without any HTTP request when none is available, otherwise
fetch `/tokens/<token>/webhooks` and wrap each entry. Iterating a non-array
response raises TypeError. -/
def list_hooks (c : TrelloClient) (transport : HttpRequest → HttpResponse)
    (token : Option String) : OpResult (List WebHook) :=
  match pyOr token c.resource_owner_key with
  | none =>
    ⟨Except.error (PyErr.tokenError "You need to pass an auth token in to list hooks."),
      [], c⟩
  | some tok =>
    (fetch_json c transport ("/tokens/" ++ tok ++ "/webhooks") "GET" [] [] [] none).then
      fun c1 j =>
        match j with
        | .arr hooks => OpResult.done c1 (existing_hook_objs c1 tok hooks)
        | _ => OpResult.done c1 (Except.error PyErr.typeError)

/-- The form POST that `create_hook` sends through `requests.post` (note:
its URL is on trello.com, not the api.trello.com base used by
`fetch_json`). -/
def create_hook_request (c : TrelloClient) (callback_url id_model : String)
    (desc : Option String) (tok : String) : HttpRequest :=
  { http_method := "POST"
    url := "https://trello.com/1/tokens/" ++ tok ++ "/webhooks/"
    params := []
    headers := []
    data := ReqData.form [("callbackURL", JValue.str callback_url),
      ("idModel", JValue.str id_model), ("description", optStrVal desc)]
    files := none
    auth := c.oauth }

/-- Method `TrelloClient.create_hook`: fall back to the client's own token,
raise TokenError when none is available, otherwise POST the hook form; on a
200 response build a WebHook from the response body's `id`, on any other
status return the literal `False`. -/
def create_hook (c : TrelloClient) (transport : HttpRequest → HttpResponse)
    (callback_url id_model : String) (desc : Option String)
    (token : Option String) : OpResult HookResult :=
  match pyOr token c.resource_owner_key with
  | none =>
    ⟨Except.error (PyErr.tokenError "You need to pass an auth token in to create a hook."),
      [], c⟩
  | some tok =>
    let req := create_hook_request c callback_url id_model desc tok
    let response := transport req
    if response.status_code = 200 then
      match response.json.item "id" with
      | .error e => ⟨Except.error e, [req], c⟩
      | .ok hook_id =>
        ⟨Except.ok (HookResult.hook
          { client := c, token := some tok, hook_id := hook_id,
            desc := optStrVal desc, id_model := JValue.str id_model,
            callback_url := JValue.str callback_url,
            active := JValue.bool true }), [req], c⟩
    else ⟨Except.ok HookResult.falseSentinel, [req], c⟩

/-- Transport used by the C4 witness: always answers 200 with an id. -/
def wTransportHook : HttpRequest → HttpResponse :=
  fun _ => ⟨200, "ok", JValue.obj [("id", JValue.str "abc")]⟩

/-- Card payload used by the C2 witness and counterexample: its own board is
b1. -/
def wCardJson : JValue :=
  JValue.obj [("id", JValue.str "c1"), ("idList", JValue.str "l1"),
    ("idBoard", JValue.str "b1")]

/-- List payload used by the C2 witness and counterexample: the list's own
board is b2, different from the card's. -/
def wListJson : JValue :=
  JValue.obj [("id", JValue.str "l1"), ("idBoard", JValue.str "b2")]

/-- Board payload used by the C2 witness and counterexample. -/
def wBoardJson : JValue := JValue.obj [("id", JValue.str "b1")]

/-- Transport used by the C2 witness and counterexample. -/
def wTransportCard : HttpRequest → HttpResponse := fun req =>
  if req.url = "https://api.trello.com/1/cards/c1" then ⟨200, "ok", wCardJson⟩
  else if req.url = "https://api.trello.com/1/lists/l1" then ⟨200, "ok", wListJson⟩
  else if req.url = "https://api.trello.com/1/boards/b1" then ⟨200, "ok", wBoardJson⟩
  else ⟨404, "missing", JValue.null⟩

/-- Hook entry payload used by the C7 witness. -/
def wHookEntry : JValue :=
  JValue.obj [("id", JValue.str "h1"), ("description", JValue.str "d"),
    ("idModel", JValue.str "m1"), ("callbackURL", JValue.str "http://cb"),
    ("active", JValue.bool true)]

/-- Transport used by the C7 witness: always answers 200 with one hook. -/
def wTransportHooks : HttpRequest → HttpResponse :=
  fun _ => ⟨200, "ok", JValue.arr [wHookEntry]⟩

/-- Client with a key but no token, used by the C7 witness. -/
def wClientNoToken : TrelloClient := TrelloClient.init (some "key") none none none

/-- The credential attributes of a client, as a tuple: everything `__init__`
sets except the non-credential `all_info`. -/
def creds (c : TrelloClient) :
    Option OAuth1 × Bool × Option String × Option String × Option String ×
      Option String :=
  (c.oauth, c.public_only, c.api_key, c.api_secret, c.resource_owner_key,
    c.resource_owner_secret)

/-- A date attribute after `Attachment.from_json`: either the timestamp the
date parser produced, or the raw JSON value kept when parsing raised. The
parser itself (dateutil) is external, so it is passed in as an oracle
`String → Option Nat`. -/
inductive DateField where
  | parsed : Nat → DateField
  | raw : JValue → DateField

/-- The `AttachmentPreview` instance attributes, exactly the six assigned in
`__init__(id, bytes, scaled, url, height, width)`; no code path ever assigns
a `name` attribute. -/
structure AttachmentPreview where
  id : JValue
  bytes : JValue
  scaled : JValue
  url : JValue
  height : JValue
  width : JValue

/-- Attribute read `getattr(p, a)` on an AttachmentPreview: only the six
attributes assigned in `__init__` exist; any other name raises
AttributeError. -/
def AttachmentPreview.getattr (p : AttachmentPreview) (a : String) :
    Except PyErr JValue :=
  if a = "id" then Except.ok p.id
  else if a = "bytes" then Except.ok p.bytes
  else if a = "scaled" then Except.ok p.scaled
  else if a = "url" then Except.ok p.url
  else if a = "height" then Except.ok p.height
  else if a = "width" then Except.ok p.width
  else Except.error (PyErr.attributeError a)

/-- Method `AttachmentPreview.__repr__`: interpolates `self.name` into the
format string (the `%s` rendering itself is immaterial to the claims). -/
def AttachmentPreview.repr (p : AttachmentPreview) : Except PyErr String :=
  match p.getattr "name" with
  | .error e => Except.error e
  | .ok v => Except.ok ("<AttachmentPreview " ++ json_dumps v ++ ">")

/-- An `Attachment` as completed by `from_json`: `__init__` sets card and id,
then `from_json` assigns the remaining attributes one by one (or raises, in
which case no completed object exists). -/
structure Attachment where
  card : Card
  id : JValue
  bytes : JValue
  edgeColor : JValue
  idMember : JValue
  isUpload : JValue
  mimeType : JValue
  url : JValue
  name : JValue
  date : DateField
  previews : List AttachmentPreview

/-- The `try: dateparser.parse(...) except: raw` block: a parsed timestamp
when the value is a string the parser accepts, the raw value otherwise (a
non-string makes the parser raise TypeError, an unparseable string makes it
raise ParserError; both are swallowed by the bare except). -/
def parse_date_field (dparse : String → Option Nat) (v : JValue) : DateField :=
  match v with
  | .str s =>
    match dparse s with
    | some t => DateField.parsed t
    | none => DateField.raw (JValue.str s)
  | other => DateField.raw other

/-- Construction of one AttachmentPreview from one entry of the `previews`
array, reading `_id`, `bytes`, `scaled`, `url`, `height`, `width` in source
order. -/
def preview_from_json (p : JValue) : Except PyErr AttachmentPreview := do
  let i ← p.item "_id"
  let b ← p.item "bytes"
  let s ← p.item "scaled"
  let u ← p.item "url"
  let h ← p.item "height"
  let w ← p.item "width"
  Except.ok ⟨i, b, s, u, h, w⟩

/-- The `for preview in json_obj['previews']` loop: one AttachmentPreview
per entry, appended in input order, raising on the first bad entry. -/
def previews_from_json : List JValue → Except PyErr (List AttachmentPreview)
  | [] => Except.ok []
  | p :: rest => do
    let item ← preview_from_json p
    let items ← previews_from_json rest
    Except.ok (item :: items)

/-- Factory `Attachment.from_json(card, json_obj)`: reads the keys in source
order (`id`, `name` with its `.encode` needing a string, the seven scalar
attributes, the leniently parsed `date`, then `previews`). -/
def Attachment.from_json (dparse : String → Option Nat) (card : Card)
    (json_obj : JValue) : Except PyErr Attachment := do
  let i ← json_obj.item "id"
  let nm0 ← json_obj.item "name"
  let _ ← (match nm0 with
    | JValue.str s => Except.ok s
    | _ => Except.error (PyErr.attributeError "encode"))
  let b ← json_obj.item "bytes"
  let ec ← json_obj.item "edgeColor"
  let im ← json_obj.item "idMember"
  let iu ← json_obj.item "isUpload"
  let mt ← json_obj.item "mimeType"
  let u ← json_obj.item "url"
  let nm ← json_obj.item "name"
  let dv ← json_obj.item "date"
  let pv ← json_obj.item "previews"
  let pvList ← (match pv with
    | JValue.arr ps => previews_from_json ps
    | _ => Except.error PyErr.typeError)
  Except.ok (⟨card, i, b, ec, im, iu, mt, u, nm,
    parse_date_field dparse dv, pvList⟩ : Attachment)

/-- Factory `Attachment.from_json_list`: one Attachment per entry, in input
order. -/
def Attachment.from_json_list (dparse : String → Option Nat) (card : Card) :
    List JValue → Except PyErr (List Attachment)
  | [] => Except.ok []
  | o :: rest => do
    let a ← Attachment.from_json dparse card o
    let rest2 ← Attachment.from_json_list dparse card rest
    Except.ok (a :: rest2)

/-- Check that an optional JSON value is a string. -/
def isSomeStr : Option JValue → Bool
  | some (.str _) => true
  | _ => false

/-- Check that an optional JSON value is an array whose entries all satisfy
a predicate. -/
def isArrAll (p : JValue → Bool) : Option JValue → Bool
  | some (.arr xs) => xs.all p
  | _ => false

/-- The keys one entry of the `previews` array is expected to carry. -/
def preview_keys_ok (p : JValue) : Bool :=
  (p.get "_id").isSome && (p.get "bytes").isSome && (p.get "scaled").isSome
    && (p.get "url").isSome && (p.get "height").isSome && (p.get "width").isSome

/-- The keys an Attachment payload is expected to carry (`name` must be a
string for `.encode`, `previews` an array of well-keyed entries). -/
def attachment_keys_ok (j : JValue) : Bool :=
  (j.get "id").isSome && isSomeStr (j.get "name") && (j.get "bytes").isSome
    && (j.get "edgeColor").isSome && (j.get "idMember").isSome
    && (j.get "isUpload").isSome && (j.get "mimeType").isSome
    && (j.get "url").isSome && (j.get "date").isSome
    && isArrAll preview_keys_ok (j.get "previews")

/-- Attachment payload used by the C3 and C5 witnesses. -/
def wAttachmentJson : JValue :=
  JValue.obj [("id", JValue.str "a1"), ("name", JValue.str "file.txt"),
    ("bytes", JValue.num 10), ("edgeColor", JValue.str "blue"),
    ("idMember", JValue.str "m1"), ("isUpload", JValue.bool true),
    ("mimeType", JValue.str "text/plain"), ("url", JValue.str "http://u"),
    ("date", JValue.str "not-a-date"),
    ("previews", JValue.arr [JValue.obj [("_id", JValue.str "p1"),
      ("bytes", JValue.num 5), ("scaled", JValue.bool true),
      ("url", JValue.str "http://p"), ("height", JValue.num 10),
      ("width", JValue.num 20)]])]

/-- Card used as the owner in the C3 and C5 witnesses. -/
def wCard : Card :=
  ⟨⟨⟨wClient, JValue.str "b1", wBoardJson⟩, JValue.str "l1", wListJson⟩,
    JValue.str "c1", wCardJson⟩

/-- C1: whenever `fetch_json` issues a request, a 401 response raises
`Unauthorized` carrying the response body text and the raw response, any
other non-200 response raises `ResourceUnavailable`, and a 200 response
returns the parsed JSON body unchanged. -/
theorem fetch_json_status_dispatch
    (c : TrelloClient) (transport : HttpRequest → HttpResponse)
    (uri_path http_method : String)
    (headers query_params : List (String × String))
    (post_args : List (String × JValue))
    (files : Option (List (String × String)))
    (req : HttpRequest)
    (hreq : fetch_request c uri_path http_method headers query_params post_args files
      = Except.ok req) :
    ((transport req).status_code = 401 →
      fetch_json c transport uri_path http_method headers query_params post_args files =
        ⟨Except.error (PyErr.unauthorized ((transport req).text ++ " at " ++ req.url)
          (transport req)), [req], c⟩) ∧
    ((transport req).status_code ≠ 401 → (transport req).status_code ≠ 200 →
      fetch_json c transport uri_path http_method headers query_params post_args files =
        ⟨Except.error (PyErr.resourceUnavailable ((transport req).text ++ " at " ++ req.url)
          (transport req)), [req], c⟩) ∧
    ((transport req).status_code = 200 →
      fetch_json c transport uri_path http_method headers query_params post_args files =
        ⟨Except.ok (transport req).json, [req], c⟩) := by
  refine ⟨fun h401 => ?_, fun h401 h200 => ?_, fun h200 => ?_⟩
  · simp [fetch_json, hreq, h401]
  · simp [fetch_json, hreq, h401, h200]
  · simp [fetch_json, hreq, h200]

/-- Witness for C1: a concrete 401 round trip raises `Unauthorized`. -/
theorem fetch_json_status_dispatch_witness :
    fetch_json wClient wTransport401 "/cards/c1" "GET" [] [] [] none =
      ⟨Except.error (PyErr.unauthorized "denied at https://api.trello.com/1/cards/c1"
        ⟨401, "denied", JValue.null⟩), [wReq], wClient⟩ :=
  (fetch_json_status_dispatch wClient wTransport401 "/cards/c1" "GET" [] [] [] none
    wReq rfl).1 rfl

theorem lookup_map_set (k v : String) :
    ∀ d : List (String × String), d.any (fun p => p.1 == k) = true →
      (d.map fun p => if p.1 == k then (k, v) else p).lookup k = some v := by
  intro d
  induction d with
  | nil => intro h; simp at h
  | cons p d ih =>
    obtain ⟨a, b⟩ := p
    intro h
    by_cases ha : a = k
    · subst ha
      simp only [List.map_cons, beq_self_eq_true, if_true, List.lookup_cons_self]
    · have hk : ((a, b).1 == k) = false := by simpa using ha
      have hd : d.any (fun q => q.1 == k) = true := by simpa [hk] using h
      have hka : (k == a) = false := by simpa using Ne.symm ha
      simp only [List.map_cons, hk, Bool.false_eq_true, if_false,
        List.lookup_cons, hka]
      exact ih hd

theorem lookup_set_append (k v : String) (d : List (String × String))
    (h : d.any (fun p => p.1 == k) = false) :
    (d ++ [(k, v)]).lookup k = some v := by
  have hnone : d.lookup k = none := by
    rw [List.lookup_eq_none_iff]
    intro p hp
    refine bne_iff_ne.mpr (fun he => ?_)
    have htrue : d.any (fun q => q.1 == k) = true :=
      List.any_eq_true.mpr ⟨p, hp, by simp [he]⟩
    rw [htrue] at h
    cases h
  rw [List.lookup_append, hnone]
  simp

theorem lookup_map_set_other (k v k' : String) (hk : k' ≠ k) :
    ∀ d : List (String × String),
      (d.map fun p => if p.1 == k then (k, v) else p).lookup k' = d.lookup k' := by
  intro d
  induction d with
  | nil => rfl
  | cons p d ih =>
    obtain ⟨a, b⟩ := p
    by_cases ha : a = k
    · have hfk : (k' == k) = false := by simpa using hk
      subst ha
      simp only [List.map_cons, beq_self_eq_true, if_true, List.lookup_cons, hfk]
      exact ih
    · have hfa : ((a, b).1 == k) = false := by simpa using ha
      simp only [List.map_cons, hfa, Bool.false_eq_true, if_false]
      rw [List.lookup_cons, List.lookup_cons]
      cases hka : k' == a
      · exact ih
      · rfl

theorem lookup_append_other (k v k' : String) (hk : k' ≠ k)
    (d : List (String × String)) :
    (d ++ [(k, v)]).lookup k' = d.lookup k' := by
  rw [List.lookup_append]
  have h1 : ([(k, v)] : List (String × String)).lookup k' = none := by
    have : (k' == k) = false := by simpa using hk
    simp [List.lookup_cons, this]
  rw [h1]
  cases d.lookup k' <;> rfl

theorem dictGet_dictSet_self (d : List (String × String)) (k v : String) :
    dictGet (dictSet d k v) k = some v := by
  unfold dictGet dictSet
  by_cases h : d.any (fun p => p.1 == k)
  · rw [if_pos h]
    exact lookup_map_set k v d h
  · rw [if_neg h]
    exact lookup_set_append k v d (by rwa [Bool.not_eq_true] at h)

theorem dictGet_dictSet_other (d : List (String × String)) (k v k' : String)
    (hk : k' ≠ k) : dictGet (dictSet d k v) k' = dictGet d k' := by
  unfold dictGet dictSet
  by_cases h : d.any (fun p => p.1 == k)
  · rw [if_pos h]
    exact lookup_map_set_other k v k' hk d
  · rw [if_neg h]
    exact lookup_append_other k v k' hk d

theorem contentTypeCondition_iff (m : String)
    (files : Option (List (String × String))) :
    contentTypeCondition m files = true ↔
      ((m = "POST" ∨ m = "PUT" ∨ m = "DELETE") ∧ filesTruthy files = false) := by
  simp [contentTypeCondition, Bool.and_eq_true, Bool.or_eq_true, or_assoc]

theorem fetch_request_shape_core
    (c : TrelloClient) (uri_path http_method : String)
    (headers query_params : List (String × String))
    (post_args : List (String × JValue))
    (files : Option (List (String × String)))
    (hne : uri_path ≠ "") :
    ∃ req : HttpRequest,
      fetch_request c uri_path http_method headers query_params post_args files
        = Except.ok req ∧
      (uri_path.data.head? = some '/' →
        req.url = "https://api.trello.com/1/" ++ uri_path.drop 1) ∧
      (uri_path.data.head? ≠ some '/' →
        req.url = "https://api.trello.com/1/" ++ uri_path) ∧
      (files = none →
        req.data = ReqData.str (json_dumps (JValue.obj post_args))) ∧
      (files ≠ none → req.data = ReqData.noData) ∧
      dictGet req.headers "Accept" = some "application/json" ∧
      (dictGet headers "Content-Type" = none →
        (dictGet req.headers "Content-Type"
            = some "application/json; charset=utf-8" ↔
          ((http_method = "POST" ∨ http_method = "PUT" ∨ http_method = "DELETE")
            ∧ filesTruthy files = false))) := by
  obtain ⟨l⟩ := uri_path
  cases l with
  | nil => exact absurd rfl hne
  | cons ch rest =>
    refine ⟨_, rfl, ?_, ?_, ?_, ?_, ?_, ?_⟩
    · intro hh
      have hch : ch = '/' := by simpa using hh
      simp [fetch_request, hch, String.drop_eq]
    · intro hh
      have hch : ¬ ch = '/' := fun he => hh (by simp [he])
      simp [fetch_request, hch]
    · intro hf
      subst hf
      rfl
    · intro hf
      obtain ⟨fs⟩ := files
      · exact absurd rfl hf
      · rfl
    · exact dictGet_dictSet_self _ "Accept" "application/json"
    · intro hct
      have hne2 : ("Content-Type" : String) ≠ "Accept" := by decide
      show dictGet (dictSet _ "Accept" "application/json") "Content-Type" = _ ↔ _
      rw [dictGet_dictSet_other _ "Accept" "application/json" "Content-Type" hne2]
      by_cases hcond : contentTypeCondition http_method files
      · rw [if_pos hcond, dictGet_dictSet_self]
        simpa using (contentTypeCondition_iff http_method files).mp hcond
      · rw [if_neg hcond, hct]
        constructor
        · intro h
          exact absurd h (by simp)
        · intro h
          exact absurd ((contentTypeCondition_iff http_method files).mpr h) hcond

/-- C6 (amended): on every call with a nonempty path, the request URL is the
fixed base URL followed by the path with a single leading slash removed, the
body is the JSON serialization of `post_args` unless `files` is supplied,
`Accept: application/json` is always present, and (when the caller did not
pass a Content-Type of their own) a JSON Content-Type is present exactly for
non-upload POST/PUT/DELETE requests. -/
theorem fetch_request_contract
    (c : TrelloClient) (uri_path http_method : String)
    (headers query_params : List (String × String))
    (post_args : List (String × JValue))
    (files : Option (List (String × String)))
    (hne : uri_path ≠ "") :
    ∃ req : HttpRequest,
      fetch_request c uri_path http_method headers query_params post_args files
        = Except.ok req ∧
      (uri_path.data.head? = some '/' →
        req.url = "https://api.trello.com/1/" ++ uri_path.drop 1) ∧
      (uri_path.data.head? ≠ some '/' →
        req.url = "https://api.trello.com/1/" ++ uri_path) ∧
      (files = none →
        req.data = ReqData.str (json_dumps (JValue.obj post_args))) ∧
      (files ≠ none → req.data = ReqData.noData) ∧
      dictGet req.headers "Accept" = some "application/json" ∧
      (dictGet headers "Content-Type" = none →
        (dictGet req.headers "Content-Type"
            = some "application/json; charset=utf-8" ↔
          ((http_method = "POST" ∨ http_method = "PUT" ∨ http_method = "DELETE")
            ∧ filesTruthy files = false))) :=
  fetch_request_shape_core c uri_path http_method headers query_params
    post_args files hne

/-- Witness for C6: a concrete POST call satisfies the request-shape
properties. -/
theorem fetch_request_contract_witness :
    ∃ req : HttpRequest,
      fetch_request wClient "/boards" "POST" [] [] [("name", JValue.str "B")] none
        = Except.ok req ∧
      (("/boards" : String).data.head? = some '/' →
        req.url = "https://api.trello.com/1/" ++ ("/boards" : String).drop 1) ∧
      (("/boards" : String).data.head? ≠ some '/' →
        req.url = "https://api.trello.com/1/" ++ "/boards") ∧
      ((none : Option (List (String × String))) = none →
        req.data = ReqData.str (json_dumps (JValue.obj [("name", JValue.str "B")]))) ∧
      ((none : Option (List (String × String))) ≠ none → req.data = ReqData.noData) ∧
      dictGet req.headers "Accept" = some "application/json" ∧
      (dictGet [] "Content-Type" = none →
        (dictGet req.headers "Content-Type"
            = some "application/json; charset=utf-8" ↔
          ((("POST" : String) = "POST" ∨ ("POST" : String) = "PUT"
              ∨ ("POST" : String) = "DELETE")
            ∧ filesTruthy none = false))) :=
  fetch_request_contract wClient "/boards" "POST" [] [] [("name", JValue.str "B")]
    none (by decide)

/-- Counterexample for C6 as stated: calling `fetch_json` with the empty path
raises IndexError at `uri_path[0]` and issues no request at all, so there is
no request whose URL is the base URL followed by the stripped path. -/
theorem fetch_json_empty_path :
    fetch_json wClient wTransport401 "" "GET" [] [] [] none =
      ⟨Except.error PyErr.indexError, [], wClient⟩ := rfl

/-- C8 (amended): after `TrelloClient.__init__`, `public_only` is true iff no
token was supplied, and an OAuth1 signing object is attached iff at least one
of api_key or token is truthy (neither None nor the empty string). -/
theorem init_credential_attachment
    (api_key api_secret token token_secret : Option String) :
    ((TrelloClient.init api_key api_secret token token_secret).public_only = true
      ↔ token = none) ∧
    ((TrelloClient.init api_key api_secret token token_secret).oauth ≠ none ↔
      (pyTruthy api_key = true ∨ pyTruthy token = true)) := by
  constructor
  · simp [TrelloClient.init, Option.isNone_iff_eq_none]
  · by_cases h : pyTruthy api_key || pyTruthy token
    · simp only [TrelloClient.init, h, if_true]
      simpa using Bool.or_eq_true _ _ |>.mp h
    · simp only [TrelloClient.init, h, if_false]
      constructor
      · intro hc
        exact absurd rfl hc
      · intro hc
        exact absurd (Bool.or_eq_true _ _ |>.mpr hc) h

/-- Counterexample for C8 as stated: an empty-string api_key is given (and no
token), yet no OAuth signing object is attached, because `__init__` tests
Python truthiness, not presence. -/
theorem init_empty_key_no_oauth :
    (TrelloClient.init (some "") none none none).oauth = none ∧
    (some "" : Option String) ≠ none := ⟨rfl, by decide⟩

theorem fetch_json_cases (c : TrelloClient)
    (transport : HttpRequest → HttpResponse) (p m : String)
    (hs qs : List (String × String)) (pa : List (String × JValue))
    (fi : Option (List (String × String))) :
    (∃ e, fetch_request c p m hs qs pa fi = Except.error e ∧
      fetch_json c transport p m hs qs pa fi = ⟨Except.error e, [], c⟩) ∨
    (∃ req, fetch_request c p m hs qs pa fi = Except.ok req ∧
      fetch_json c transport p m hs qs pa fi =
        (if (transport req).status_code = 401 then
          ⟨Except.error (PyErr.unauthorized ((transport req).text ++ " at " ++ req.url)
            (transport req)), [req], c⟩
        else if (transport req).status_code ≠ 200 then
          ⟨Except.error (PyErr.resourceUnavailable ((transport req).text ++ " at " ++ req.url)
            (transport req)), [req], c⟩
        else ⟨Except.ok (transport req).json, [req], c⟩)) := by
  unfold fetch_json
  rcases hfr : fetch_request c p m hs qs pa fi with e | req
  · exact Or.inl ⟨e, rfl, rfl⟩
  · exact Or.inr ⟨req, rfl, rfl⟩

theorem fetch_json_ok_shape (c : TrelloClient)
    (transport : HttpRequest → HttpResponse) (p m : String)
    (hs qs : List (String × String)) (pa : List (String × JValue))
    (fi : Option (List (String × String))) (j : JValue)
    (h : (fetch_json c transport p m hs qs pa fi).result = Except.ok j) :
    ∃ req, fetch_request c p m hs qs pa fi = Except.ok req ∧
      (transport req).status_code = 200 ∧
      fetch_json c transport p m hs qs pa fi = ⟨Except.ok j, [req], c⟩ := by
  rcases fetch_json_cases c transport p m hs qs pa fi with
    ⟨e, hfr, heq⟩ | ⟨req, hfr, heq⟩
  · rw [heq] at h
    exact absurd h (by simp)
  · rw [heq] at h
    by_cases h401 : (transport req).status_code = 401
    · rw [if_pos h401] at h
      exact absurd h (by simp)
    · rw [if_neg h401] at h
      by_cases h200 : (transport req).status_code ≠ 200
      · rw [if_pos h200] at h
        exact absurd h (by simp)
      · rw [if_neg h200] at h
        have hj : (transport req).json = j := by simpa using h
        refine ⟨req, hfr, not_not.mp h200, ?_⟩
        rw [heq, if_neg h401, if_neg h200, hj]

theorem fetch_json_client (c : TrelloClient)
    (transport : HttpRequest → HttpResponse) (p m : String)
    (hs qs : List (String × String)) (pa : List (String × JValue))
    (fi : Option (List (String × String))) :
    (fetch_json c transport p m hs qs pa fi).client = c := by
  rcases fetch_json_cases c transport p m hs qs pa fi with
    ⟨e, _, heq⟩ | ⟨req, _, heq⟩
  · rw [heq]
  · rw [heq]
    split
    · rfl
    · split <;> rfl

theorem existing_hook_objs_ok_length (c : TrelloClient) (tok : String) :
    ∀ hooks : List JValue,
      (∀ h ∈ hooks, ∃ w, webhook_from_entry c tok h = Except.ok w) →
      ∃ ws, existing_hook_objs c tok hooks = Except.ok ws ∧
        ws.length = hooks.length := by
  intro hooks
  induction hooks with
  | nil => exact fun _ => ⟨[], rfl, rfl⟩
  | cons h rest ih =>
    intro hall
    obtain ⟨w, hw⟩ := hall h (by simp)
    obtain ⟨ws, hws, hlen⟩ := ih (fun x hx => hall x (by simp [hx]))
    refine ⟨w :: ws, ?_, by simp [hlen]⟩
    simp only [existing_hook_objs, hw, hws]
    rfl

/-- C4: `create_hook` raises TokenError when neither an argument token nor
the client's stored token is available; with an available token, a 200
response yields a WebHook whose id is the response body's `id` value, whose
callback URL and model id equal the arguments, with active true; any other
status returns the falsy sentinel rather than raising. -/
theorem create_hook_contract
    (c : TrelloClient) (transport : HttpRequest → HttpResponse)
    (callback_url id_model : String) (desc token : Option String) :
    (pyOr token c.resource_owner_key = none →
      create_hook c transport callback_url id_model desc token =
        ⟨Except.error
          (PyErr.tokenError "You need to pass an auth token in to create a hook."),
          [], c⟩) ∧
    (∀ tok, pyOr token c.resource_owner_key = some tok →
      ∀ hid, (transport (create_hook_request c callback_url id_model desc tok)).status_code = 200 →
        (transport (create_hook_request c callback_url id_model desc tok)).json.item "id"
          = Except.ok hid →
        create_hook c transport callback_url id_model desc token =
          ⟨Except.ok (HookResult.hook
            { client := c, token := some tok, hook_id := hid,
              desc := optStrVal desc, id_model := JValue.str id_model,
              callback_url := JValue.str callback_url,
              active := JValue.bool true }),
            [create_hook_request c callback_url id_model desc tok], c⟩) ∧
    (∀ tok, pyOr token c.resource_owner_key = some tok →
      (transport (create_hook_request c callback_url id_model desc tok)).status_code ≠ 200 →
      create_hook c transport callback_url id_model desc token =
        ⟨Except.ok HookResult.falseSentinel,
          [create_hook_request c callback_url id_model desc tok], c⟩) := by
  refine ⟨fun h => ?_, fun tok htok hid h200 hitem => ?_, fun tok htok hn => ?_⟩
  · simp [create_hook, h]
  · simp [create_hook, htok, h200, hitem]
  · simp [create_hook, htok, hn]

/-- Witness for C4: a concrete 200 round trip yields the WebHook with id
"abc", matching callback URL and model id, and active true. -/
theorem create_hook_contract_witness :
    create_hook wClient wTransportHook "http://cb" "m1" none none =
      ⟨Except.ok (HookResult.hook
        { client := wClient, token := some "tok", hook_id := JValue.str "abc",
          desc := JValue.null, id_model := JValue.str "m1",
          callback_url := JValue.str "http://cb", active := JValue.bool true }),
        [create_hook_request wClient "http://cb" "m1" none "tok"], wClient⟩ :=
  (create_hook_contract wClient wTransportHook "http://cb" "m1" none none).2.1
    "tok" rfl (JValue.str "abc") rfl rfl

/-- C7: `list_hooks` with no argument token on a client with no stored token
raises TokenError without issuing any HTTP request; with an available token
(argument or fallback) it fetches that token's webhooks and returns one
WebHook per returned entry. -/
theorem list_hooks_contract
    (c : TrelloClient) (transport : HttpRequest → HttpResponse)
    (token : Option String) :
    (c.resource_owner_key = none →
      list_hooks c transport none =
        ⟨Except.error
          (PyErr.tokenError "You need to pass an auth token in to list hooks."),
          [], c⟩) ∧
    (∀ tok, pyOr token c.resource_owner_key = some tok →
      ∀ hooks : List JValue,
        (fetch_json c transport ("/tokens/" ++ tok ++ "/webhooks") "GET" [] [] [] none).result
          = Except.ok (JValue.arr hooks) →
        (∀ h ∈ hooks, ∃ w, webhook_from_entry c tok h = Except.ok w) →
        ∃ ws : List WebHook,
          (list_hooks c transport token).result = Except.ok ws ∧
          ws.length = hooks.length ∧
          ∃ req, (list_hooks c transport token).trace = [req] ∧
            req.url = "https://api.trello.com/1/" ++ ("tokens/" ++ tok ++ "/webhooks")) := by
  constructor
  · intro h
    simp [list_hooks, pyOr, pyTruthy, h]
  · intro tok htok hooks hfetch hall
    obtain ⟨req, hfr, _, heq⟩ :=
      fetch_json_ok_shape c transport ("/tokens/" ++ tok ++ "/webhooks")
        "GET" [] [] [] none (JValue.arr hooks) hfetch
    obtain ⟨ws, hws, hlen⟩ := existing_hook_objs_ok_length c tok hooks hall
    refine ⟨ws, ?_, hlen, req, ?_, ?_⟩
    · simp [list_hooks, htok, heq, OpResult.then, OpResult.done, hws]
    · simp [list_hooks, htok, heq, OpResult.then, OpResult.done, hws]
    · obtain ⟨q, hq, hsl, _, _, _, _, _⟩ :=
        fetch_request_shape_core c ("/tokens/" ++ tok ++ "/webhooks") "GET" [] [] [] none
          (by
            intro he
            have := congrArg String.data he
            simp at this)
      rw [hq] at hfr
      have hqr : q = req := by
        injection hfr
      have hhead : ("/tokens/" ++ tok ++ "/webhooks").data.head? = some '/' := by
        simp
      rw [← hqr, hsl hhead, String.drop_eq]
      rfl

theorem except_ok_bind {α β : Type} (a : α) (f : α → Except PyErr β) :
    (Except.ok a >>= f) = f a := rfl

/-- C2 (amended): under responsive transports, `get_card` issues exactly
three dependent fetches in order — the card, the list named by the card's
`idList`, and the board named by the card's own `idBoard` field (which need
not be the list's board) — and returns a Card whose list and board
back-references hold the fetched list and board payloads. -/
theorem get_card_three_fetches
    (c : TrelloClient) (transport : HttpRequest → HttpResponse)
    (card_id lid bid : String)
    (card_json list_json board_json ljid bjid cjid : JValue)
    (h1 : (fetch_json c transport ("/cards/" ++ card_id) "GET" [] [] [] none).result
      = Except.ok card_json)
    (h2 : card_json.item "idList" = Except.ok (JValue.str lid))
    (h3 : card_json.item "idBoard" = Except.ok (JValue.str bid))
    (h4 : (fetch_json c transport ("/lists/" ++ lid) "GET" [] [] [] none).result
      = Except.ok list_json)
    (h5 : (fetch_json c transport ("/boards/" ++ bid) "GET" [] [] [] none).result
      = Except.ok board_json)
    (h6 : list_json.item "id" = Except.ok ljid)
    (h7 : board_json.item "id" = Except.ok bjid)
    (h8 : card_json.item "id" = Except.ok cjid) :
    (get_card c transport card_id).result =
      Except.ok ⟨⟨⟨c, bjid, board_json⟩, ljid, list_json⟩, cjid, card_json⟩ ∧
    ∃ r1 r2 r3, (get_card c transport card_id).trace = [r1, r2, r3] ∧
      r1.url = "https://api.trello.com/1/" ++ ("cards/" ++ card_id) ∧
      r2.url = "https://api.trello.com/1/" ++ ("lists/" ++ lid) ∧
      r3.url = "https://api.trello.com/1/" ++ ("boards/" ++ bid) := by
  obtain ⟨r1, hfr1, _, he1⟩ :=
    fetch_json_ok_shape c transport ("/cards/" ++ card_id) "GET" [] [] [] none
      card_json h1
  obtain ⟨r2, hfr2, _, he2⟩ :=
    fetch_json_ok_shape c transport ("/lists/" ++ lid) "GET" [] [] [] none
      list_json h4
  obtain ⟨r3, hfr3, _, he3⟩ :=
    fetch_json_ok_shape c transport ("/boards/" ++ bid) "GET" [] [] [] none
      board_json h5
  have hmain : get_card c transport card_id =
      ⟨Except.ok ⟨⟨⟨c, bjid, board_json⟩, ljid, list_json⟩, cjid, card_json⟩,
        [r1, r2, r3], c⟩ := by
    unfold get_card get_board
    rw [he1]
    simp only [OpResult.then, OpResult.done, except_ok_bind, JValue.asStr,
      Board.from_json, TrelloList.from_json, Card.from_json,
      h2, h3, h6, h7, h8, he2, he3, List.cons_append, List.nil_append,
      List.append_nil, List.singleton_append]
  refine ⟨by rw [hmain], r1, r2, r3, by rw [hmain], ?_, ?_, ?_⟩
  · have hne : ("/cards/" ++ card_id) ≠ "" := by
      intro he
      have := congrArg String.data he
      simp at this
    obtain ⟨q, hq, hsl, _, _, _, _, _⟩ :=
      fetch_request_shape_core c ("/cards/" ++ card_id) "GET" [] [] [] none hne
    rw [hq] at hfr1
    have hqr : q = r1 := by injection hfr1
    have hh : ("/cards/" ++ card_id).data.head? = some '/' := by simp
    rw [← hqr, hsl hh, String.drop_eq]
    rfl
  · have hne : ("/lists/" ++ lid) ≠ "" := by
      intro he
      have := congrArg String.data he
      simp at this
    obtain ⟨q, hq, hsl, _, _, _, _, _⟩ :=
      fetch_request_shape_core c ("/lists/" ++ lid) "GET" [] [] [] none hne
    rw [hq] at hfr2
    have hqr : q = r2 := by injection hfr2
    have hh : ("/lists/" ++ lid).data.head? = some '/' := by simp
    rw [← hqr, hsl hh, String.drop_eq]
    rfl
  · have hne : ("/boards/" ++ bid) ≠ "" := by
      intro he
      have := congrArg String.data he
      simp at this
    obtain ⟨q, hq, hsl, _, _, _, _, _⟩ :=
      fetch_request_shape_core c ("/boards/" ++ bid) "GET" [] [] [] none hne
    rw [hq] at hfr3
    have hqr : q = r3 := by injection hfr3
    have hh : ("/boards/" ++ bid).data.head? = some '/' := by simp
    rw [← hqr, hsl hh, String.drop_eq]
    rfl

/-- Witness for C2 (amended): the three fetches and the returned Card on a
concrete transport. -/
theorem get_card_three_fetches_witness :
    (get_card wClient wTransportCard "c1").result =
      Except.ok ⟨⟨⟨wClient, JValue.str "b1", wBoardJson⟩, JValue.str "l1", wListJson⟩,
        JValue.str "c1", wCardJson⟩ ∧
    ∃ r1 r2 r3, (get_card wClient wTransportCard "c1").trace = [r1, r2, r3] ∧
      r1.url = "https://api.trello.com/1/" ++ ("cards/" ++ "c1") ∧
      r2.url = "https://api.trello.com/1/" ++ ("lists/" ++ "l1") ∧
      r3.url = "https://api.trello.com/1/" ++ ("boards/" ++ "b1") :=
  get_card_three_fetches wClient wTransportCard "c1" "l1" "b1"
    wCardJson wListJson wBoardJson (JValue.str "l1") (JValue.str "b1")
    (JValue.str "c1") rfl rfl rfl rfl rfl rfl rfl rfl

/-- Counterexample for C2 as stated ("the third fetch is the list's board"):
on a transport where the card's idBoard is b1 but the fetched list's own
idBoard is b2, the third fetched URL is the card's board b1, not the list's
board b2. -/
theorem get_card_third_fetch_not_lists_board :
    (get_card wClient wTransportCard "c1").trace.map HttpRequest.url =
      ["https://api.trello.com/1/cards/c1", "https://api.trello.com/1/lists/l1",
       "https://api.trello.com/1/boards/b1"] ∧
    wListJson.get "idBoard" = some (JValue.str "b2") ∧
    ("https://api.trello.com/1/boards/b1" : String)
      ≠ "https://api.trello.com/1/boards/b2" :=
  ⟨rfl, rfl, by decide⟩

/-- Witness for C7: TokenError with no token anywhere, and one WebHook per
entry on a concrete 200 round trip. -/
theorem list_hooks_contract_witness :
    (list_hooks wClientNoToken wTransportHooks none =
      ⟨Except.error
        (PyErr.tokenError "You need to pass an auth token in to list hooks."),
        [], wClientNoToken⟩) ∧
    (∃ ws : List WebHook,
      (list_hooks wClient wTransportHooks none).result = Except.ok ws ∧
      ws.length = [wHookEntry].length ∧
      ∃ req, (list_hooks wClient wTransportHooks none).trace = [req] ∧
        req.url = "https://api.trello.com/1/" ++ ("tokens/" ++ "tok" ++ "/webhooks")) :=
  ⟨(list_hooks_contract wClientNoToken wTransportHooks none).1 rfl,
   (list_hooks_contract wClient wTransportHooks none).2 "tok" rfl [wHookEntry] rfl
     (fun h hh => by
       simp only [List.mem_singleton] at hh
       subst hh
       exact ⟨_, rfl⟩)⟩

theorem OpResult.done_client {α : Type} (c : TrelloClient) (x : Except PyErr α) :
    (OpResult.done c x).client = c := rfl

theorem OpResult.then_client {α β : Type} (r : OpResult α)
    (f : TrelloClient → α → OpResult β)
    (hf : ∀ c a, (f c a).client = c) : (r.then f).client = r.client := by
  unfold OpResult.then
  cases hres : r.result
  · rfl
  · exact hf r.client _

theorem get_board_client (c : TrelloClient)
    (transport : HttpRequest → HttpResponse) (board_id : String) :
    (get_board c transport board_id).client = c := by
  unfold get_board
  exact (OpResult.then_client _ _ (fun c1 obj => rfl)).trans
    (fetch_json_client _ _ _ _ _ _ _ _)

theorem get_card_client (c : TrelloClient)
    (transport : HttpRequest → HttpResponse) (card_id : String) :
    (get_card c transport card_id).client = c := by
  unfold get_card
  refine (OpResult.then_client _ _ ?_).trans (fetch_json_client _ _ _ _ _ _ _ _)
  intro c1 card_json
  refine (OpResult.then_client _ _ ?_).trans (OpResult.done_client _ _)
  intro c2 idList
  refine (OpResult.then_client _ _ ?_).trans (fetch_json_client _ _ _ _ _ _ _ _)
  intro c3 list_json
  refine (OpResult.then_client _ _ ?_).trans (OpResult.done_client _ _)
  intro c4 idBoard
  refine (OpResult.then_client _ _ ?_).trans (get_board_client _ _ _)
  intro c5 board
  exact OpResult.done_client _ _

theorem list_boards_client (c : TrelloClient)
    (transport : HttpRequest → HttpResponse) (board_filter : String) :
    (list_boards c transport board_filter).client = c := by
  unfold list_boards
  refine (OpResult.then_client _ _ ?_).trans (fetch_json_client _ _ _ _ _ _ _ _)
  intro c1 j
  cases j <;> rfl

theorem list_organizations_client (c : TrelloClient)
    (transport : HttpRequest → HttpResponse) :
    (list_organizations c transport).client = c := by
  unfold list_organizations
  refine (OpResult.then_client _ _ ?_).trans (fetch_json_client _ _ _ _ _ _ _ _)
  intro c1 j
  cases j <;> rfl

theorem get_organization_client (c : TrelloClient)
    (transport : HttpRequest → HttpResponse) (organization_id : String) :
    (get_organization c transport organization_id).client = c := by
  unfold get_organization
  exact (OpResult.then_client _ _ (fun c1 obj => rfl)).trans
    (fetch_json_client _ _ _ _ _ _ _ _)

theorem add_board_client (c : TrelloClient)
    (transport : HttpRequest → HttpResponse) (board_name : String)
    (source_board : Option Board) :
    (add_board c transport board_name source_board).client = c := by
  unfold add_board
  cases source_board <;>
    exact (OpResult.then_client _ _ (fun c1 obj => rfl)).trans
      (fetch_json_client _ _ _ _ _ _ _ _)

theorem get_member_client (c : TrelloClient)
    (transport : HttpRequest → HttpResponse) (member_id : String) :
    (get_member c transport member_id).client = c := by
  unfold get_member
  exact (OpResult.then_client _ _ (fun c1 j => rfl)).trans
    (fetch_json_client _ _ _ _ _ _ _ _)

theorem get_label_client (c : TrelloClient)
    (transport : HttpRequest → HttpResponse) (label_id board_id : String) :
    (get_label c transport label_id board_id).client = c := by
  unfold get_label
  refine (OpResult.then_client _ _ ?_).trans (get_board_client _ _ _)
  intro c1 board
  exact (OpResult.then_client _ _ (fun c2 j => rfl)).trans
    (fetch_json_client _ _ _ _ _ _ _ _)

theorem list_hooks_client (c : TrelloClient)
    (transport : HttpRequest → HttpResponse) (token : Option String) :
    (list_hooks c transport token).client = c := by
  unfold list_hooks
  cases hp : pyOr token c.resource_owner_key
  · rfl
  · refine (OpResult.then_client _ _ ?_).trans (fetch_json_client _ _ _ _ _ _ _ _)
    intro c1 j
    cases j <;> rfl

theorem create_hook_client (c : TrelloClient)
    (transport : HttpRequest → HttpResponse) (callback_url id_model : String)
    (desc token : Option String) :
    (create_hook c transport callback_url id_model desc token).client = c := by
  unfold create_hook
  cases hp : pyOr token c.resource_owner_key
  · rfl
  · dsimp only
    split
    · split <;> rfl
    · rfl

theorem info_for_all_boards_creds (c : TrelloClient)
    (transport : HttpRequest → HttpResponse) (actions : String) :
    creds ((info_for_all_boards c transport actions).client) = creds c := by
  unfold info_for_all_boards
  by_cases h : c.public_only
  · rw [if_pos h]
  · rw [if_neg h]
    unfold OpResult.then
    cases hres : (fetch_json c transport "/members/me/boards/all" "GET" []
        [("actions", actions)] [] none).result
    · exact congrArg creds (fetch_json_client _ _ _ _ _ _ _ _)
    · show creds ((fetch_json c transport "/members/me/boards/all" "GET" []
          [("actions", actions)] [] none).client) = creds c
      exact congrArg creds (fetch_json_client _ _ _ _ _ _ _ _)

/-- C9: every public client operation leaves the credential fields (oauth,
public_only, api_key, api_secret, resource_owner_key, resource_owner_secret)
unchanged; only the non-credential `all_info` is ever written. -/
theorem client_credentials_immutable
    (c : TrelloClient) (transport : HttpRequest → HttpResponse)
    (p m board_filter actions organization_id board_id board_name member_id
      card_id label_id callback_url id_model : String)
    (hs qs : List (String × String)) (pa : List (String × JValue))
    (fi : Option (List (String × String))) (source_board : Option Board)
    (desc token : Option String) :
    creds ((fetch_json c transport p m hs qs pa fi).client) = creds c ∧
    creds ((list_boards c transport board_filter).client) = creds c ∧
    creds ((list_organizations c transport).client) = creds c ∧
    creds ((info_for_all_boards c transport actions).client) = creds c ∧
    creds ((get_organization c transport organization_id).client) = creds c ∧
    creds ((get_board c transport board_id).client) = creds c ∧
    creds ((add_board c transport board_name source_board).client) = creds c ∧
    creds ((get_member c transport member_id).client) = creds c ∧
    creds ((get_card c transport card_id).client) = creds c ∧
    creds ((get_label c transport label_id board_id).client) = creds c ∧
    creds ((list_hooks c transport token).client) = creds c ∧
    creds ((create_hook c transport callback_url id_model desc token).client)
      = creds c ∧
    creds ((logout c).client) = creds c := by
  refine ⟨?_, ?_, ?_, ?_, ?_, ?_, ?_, ?_, ?_, ?_, ?_, ?_, ?_⟩
  · exact congrArg creds (fetch_json_client c transport p m hs qs pa fi)
  · exact congrArg creds (list_boards_client c transport board_filter)
  · exact congrArg creds (list_organizations_client c transport)
  · exact info_for_all_boards_creds c transport actions
  · exact congrArg creds (get_organization_client c transport organization_id)
  · exact congrArg creds (get_board_client c transport board_id)
  · exact congrArg creds (add_board_client c transport board_name source_board)
  · exact congrArg creds (get_member_client c transport member_id)
  · exact congrArg creds (get_card_client c transport card_id)
  · exact congrArg creds (get_label_client c transport label_id board_id)
  · exact congrArg creds (list_hooks_client c transport token)
  · exact congrArg creds
      (create_hook_client c transport callback_url id_model desc token)
  · rfl

theorem item_of_get {j : JValue} {k : String} {v : JValue}
    (h : j.get k = some v) : j.item k = Except.ok v := by
  cases j <;> simp_all [JValue.get, JValue.item]

theorem isSomeStr_iff {o : Option JValue} :
    isSomeStr o = true ↔ ∃ s, o = some (JValue.str s) := by
  cases o with
  | none => simp [isSomeStr]
  | some v => cases v <;> simp [isSomeStr]

theorem isArrAll_iff {p : JValue → Bool} {o : Option JValue} :
    isArrAll p o = true ↔ ∃ xs, o = some (JValue.arr xs) ∧ xs.all p = true := by
  cases o with
  | none => simp [isArrAll]
  | some v => cases v <;> simp [isArrAll]

theorem preview_from_json_ok (p : JValue) (hk : preview_keys_ok p = true) :
    ∃ item, preview_from_json p = Except.ok item ∧
      some item.id = p.get "_id" ∧ some item.bytes = p.get "bytes" ∧
      some item.scaled = p.get "scaled" ∧ some item.url = p.get "url" ∧
      some item.height = p.get "height" ∧ some item.width = p.get "width" := by
  unfold preview_keys_ok at hk
  simp only [Bool.and_eq_true, Option.isSome_iff_exists] at hk
  obtain ⟨⟨⟨⟨⟨⟨i, hi⟩, b, hb⟩, s, hs⟩, u, hu⟩, hv, hh⟩, w, hw⟩ := hk
  refine ⟨⟨i, b, s, u, hv, w⟩, ?_, hi.symm, hb.symm, hs.symm, hu.symm,
    hh.symm, hw.symm⟩
  simp only [preview_from_json, item_of_get hi, item_of_get hb,
    item_of_get hs, item_of_get hu, item_of_get hh, item_of_get hw,
    except_ok_bind]

theorem previews_from_json_ok : ∀ ps : List JValue,
    ps.all preview_keys_ok = true →
    ∃ items, previews_from_json ps = Except.ok items ∧
      List.Forall₂ (fun p item =>
        some (AttachmentPreview.id item) = p.get "_id" ∧
        some (AttachmentPreview.bytes item) = p.get "bytes" ∧
        some (AttachmentPreview.scaled item) = p.get "scaled" ∧
        some (AttachmentPreview.url item) = p.get "url" ∧
        some (AttachmentPreview.height item) = p.get "height" ∧
        some (AttachmentPreview.width item) = p.get "width") ps items := by
  intro ps
  induction ps with
  | nil => exact fun _ => ⟨[], rfl, List.Forall₂.nil⟩
  | cons p rest ih =>
    intro hall
    simp only [List.all_cons, Bool.and_eq_true] at hall
    obtain ⟨hp, hrest⟩ := hall
    obtain ⟨item, hitem, hf⟩ := preview_from_json_ok p hp
    obtain ⟨items, hitems, hff⟩ := ih hrest
    refine ⟨item :: items, ?_, List.Forall₂.cons hf hff⟩
    simp only [previews_from_json, hitem, hitems, except_ok_bind]

theorem attachment_from_json_ok (dparse : String → Option Nat) (card : Card)
    (j : JValue) (hk : attachment_keys_ok j = true) :
    ∃ a : Attachment, Attachment.from_json dparse card j = Except.ok a ∧
      a.card = card ∧
      some a.id = j.get "id" ∧ some a.bytes = j.get "bytes" ∧
      some a.edgeColor = j.get "edgeColor" ∧
      some a.idMember = j.get "idMember" ∧
      some a.isUpload = j.get "isUpload" ∧
      some a.mimeType = j.get "mimeType" ∧
      some a.url = j.get "url" ∧ some a.name = j.get "name" ∧
      (∀ dv, j.get "date" = some dv → a.date = parse_date_field dparse dv) ∧
      (∀ ps, j.get "previews" = some (JValue.arr ps) →
        List.Forall₂ (fun p item =>
          some (AttachmentPreview.id item) = p.get "_id" ∧
          some (AttachmentPreview.bytes item) = p.get "bytes" ∧
          some (AttachmentPreview.scaled item) = p.get "scaled" ∧
          some (AttachmentPreview.url item) = p.get "url" ∧
          some (AttachmentPreview.height item) = p.get "height" ∧
          some (AttachmentPreview.width item) = p.get "width") ps a.previews) := by
  unfold attachment_keys_ok at hk
  simp only [Bool.and_eq_true] at hk
  obtain ⟨⟨⟨⟨⟨⟨⟨⟨⟨hid, hname⟩, hbytes⟩, hedge⟩, hmem⟩, hup⟩, hmime⟩, hurl⟩,
    hdate⟩, hprev⟩ := hk
  obtain ⟨vid, hvid⟩ := Option.isSome_iff_exists.mp hid
  obtain ⟨sname, hsname⟩ := isSomeStr_iff.mp hname
  obtain ⟨vb, hvb⟩ := Option.isSome_iff_exists.mp hbytes
  obtain ⟨ve, hve⟩ := Option.isSome_iff_exists.mp hedge
  obtain ⟨vm, hvm⟩ := Option.isSome_iff_exists.mp hmem
  obtain ⟨vu, hvu⟩ := Option.isSome_iff_exists.mp hup
  obtain ⟨vt, hvt⟩ := Option.isSome_iff_exists.mp hmime
  obtain ⟨vr, hvr⟩ := Option.isSome_iff_exists.mp hurl
  obtain ⟨vd, hvd⟩ := Option.isSome_iff_exists.mp hdate
  obtain ⟨ps, hps, hall⟩ := isArrAll_iff.mp hprev
  obtain ⟨items, hitems, hff⟩ := previews_from_json_ok ps hall
  refine ⟨⟨card, vid, vb, ve, vm, vu, vt, vr, JValue.str sname,
    parse_date_field dparse vd, items⟩, ?_, rfl, hvid.symm, hvb.symm,
    hve.symm, hvm.symm, hvu.symm, hvt.symm, hvr.symm, hsname.symm, ?_, ?_⟩
  · simp only [Attachment.from_json, item_of_get hvid, item_of_get hsname,
      item_of_get hvb, item_of_get hve, item_of_get hvm, item_of_get hvu,
      item_of_get hvt, item_of_get hvr, item_of_get hvd, item_of_get hps,
      hitems, except_ok_bind]
  · intro dv hdv
    rw [hvd] at hdv
    cases hdv
    rfl
  · intro ps2 hps2
    rw [hps] at hps2
    cases hps2
    exact hff

/-- C3: a malformed date never aborts `Attachment.from_json`: with all
expected keys present and a string date value, construction succeeds, the
date attribute is the raw unparsed string when the parser fails, and the
parsed timestamp when it succeeds. -/
theorem attachment_date_leniency (dparse : String → Option Nat) (card : Card)
    (j : JValue) (s : String) (hk : attachment_keys_ok j = true)
    (hd : j.get "date" = some (JValue.str s)) :
    ∃ a : Attachment, Attachment.from_json dparse card j = Except.ok a ∧
      (dparse s = none → a.date = DateField.raw (JValue.str s)) ∧
      (∀ t, dparse s = some t → a.date = DateField.parsed t) := by
  obtain ⟨a, hrun, _, _, _, _, _, _, _, _, _, hdate, _⟩ :=
    attachment_from_json_ok dparse card j hk
  refine ⟨a, hrun, ?_, ?_⟩
  · intro hn
    rw [hdate (JValue.str s) hd]
    simp [parse_date_field, hn]
  · intro t ht
    rw [hdate (JValue.str s) hd]
    simp [parse_date_field, ht]

/-- Witness for C3: a concrete payload, once under a parser that rejects the
date and once under one that accepts it. -/
theorem attachment_date_leniency_witness :
    (∃ a : Attachment,
      Attachment.from_json (fun _ => none) wCard wAttachmentJson = Except.ok a ∧
      ((fun _ => none : String → Option Nat) "not-a-date" = none →
        a.date = DateField.raw (JValue.str "not-a-date")) ∧
      (∀ t, (fun _ => none : String → Option Nat) "not-a-date" = some t →
        a.date = DateField.parsed t)) ∧
    (∃ a : Attachment,
      Attachment.from_json (fun _ => some 42) wCard wAttachmentJson = Except.ok a ∧
      ((fun _ => some 42 : String → Option Nat) "not-a-date" = none →
        a.date = DateField.raw (JValue.str "not-a-date")) ∧
      (∀ t, (fun _ => some 42 : String → Option Nat) "not-a-date" = some t →
        a.date = DateField.parsed t)) :=
  ⟨attachment_date_leniency (fun _ => none) wCard wAttachmentJson "not-a-date"
      rfl rfl,
   attachment_date_leniency (fun _ => some 42) wCard wAttachmentJson "not-a-date"
      rfl rfl⟩

theorem attachment_from_json_list_ok (dparse : String → Option Nat)
    (card : Card) : ∀ objs : List JValue,
    (∀ o ∈ objs, attachment_keys_ok o = true) →
    ∃ as2, Attachment.from_json_list dparse card objs = Except.ok as2 ∧
      List.Forall₂
        (fun o a => Attachment.from_json dparse card o = Except.ok a)
        objs as2 := by
  intro objs
  induction objs with
  | nil => exact fun _ => ⟨[], rfl, List.Forall₂.nil⟩
  | cons o rest ih =>
    intro hall
    obtain ⟨a, ha, _⟩ :=
      attachment_from_json_ok dparse card o (hall o (by simp))
    obtain ⟨as2, has, hff⟩ := ih (fun x hx => hall x (by simp [hx]))
    refine ⟨a :: as2, ?_, List.Forall₂.cons ha hff⟩
    simp only [Attachment.from_json_list, ha, has, except_ok_bind]

/-- C5: with all expected keys present, `Attachment.from_json` copies the
id, bytes, edgeColor, idMember, isUpload, mimeType, url and name values
verbatim into the object, each constructed AttachmentPreview copies its six
entry values verbatim, and `from_json_list` returns one object per array
entry in input order. -/
theorem attachment_from_json_verbatim (dparse : String → Option Nat)
    (card : Card) (j : JValue) (hk : attachment_keys_ok j = true) :
    (∃ a : Attachment, Attachment.from_json dparse card j = Except.ok a ∧
      a.card = card ∧
      some a.id = j.get "id" ∧ some a.bytes = j.get "bytes" ∧
      some a.edgeColor = j.get "edgeColor" ∧
      some a.idMember = j.get "idMember" ∧
      some a.isUpload = j.get "isUpload" ∧
      some a.mimeType = j.get "mimeType" ∧
      some a.url = j.get "url" ∧ some a.name = j.get "name" ∧
      (∀ ps, j.get "previews" = some (JValue.arr ps) →
        List.Forall₂ (fun p item =>
          some (AttachmentPreview.id item) = p.get "_id" ∧
          some (AttachmentPreview.bytes item) = p.get "bytes" ∧
          some (AttachmentPreview.scaled item) = p.get "scaled" ∧
          some (AttachmentPreview.url item) = p.get "url" ∧
          some (AttachmentPreview.height item) = p.get "height" ∧
          some (AttachmentPreview.width item) = p.get "width") ps a.previews)) ∧
    (∀ objs : List JValue, (∀ o ∈ objs, attachment_keys_ok o = true) →
      ∃ as2, Attachment.from_json_list dparse card objs = Except.ok as2 ∧
        List.Forall₂
          (fun o a => Attachment.from_json dparse card o = Except.ok a)
          objs as2) := by
  constructor
  · obtain ⟨a, hrun, hc, h1, h2, h3, h4, h5, h6, h7, h8, _, hprev⟩ :=
      attachment_from_json_ok dparse card j hk
    exact ⟨a, hrun, hc, h1, h2, h3, h4, h5, h6, h7, h8, hprev⟩
  · exact attachment_from_json_list_ok dparse card

/-- Witness for C5: the concrete payload round-trips verbatim and a
singleton list yields one object. -/
theorem attachment_from_json_verbatim_witness :
    (∃ a : Attachment,
      Attachment.from_json (fun _ => none) wCard wAttachmentJson = Except.ok a ∧
      a.card = wCard ∧
      some a.id = wAttachmentJson.get "id" ∧
      some a.bytes = wAttachmentJson.get "bytes" ∧
      some a.edgeColor = wAttachmentJson.get "edgeColor" ∧
      some a.idMember = wAttachmentJson.get "idMember" ∧
      some a.isUpload = wAttachmentJson.get "isUpload" ∧
      some a.mimeType = wAttachmentJson.get "mimeType" ∧
      some a.url = wAttachmentJson.get "url" ∧
      some a.name = wAttachmentJson.get "name" ∧
      (∀ ps, wAttachmentJson.get "previews" = some (JValue.arr ps) →
        List.Forall₂ (fun p item =>
          some (AttachmentPreview.id item) = p.get "_id" ∧
          some (AttachmentPreview.bytes item) = p.get "bytes" ∧
          some (AttachmentPreview.scaled item) = p.get "scaled" ∧
          some (AttachmentPreview.url item) = p.get "url" ∧
          some (AttachmentPreview.height item) = p.get "height" ∧
          some (AttachmentPreview.width item) = p.get "width") ps a.previews)) ∧
    (∀ objs : List JValue, (∀ o ∈ objs, attachment_keys_ok o = true) →
      ∃ as2, Attachment.from_json_list (fun _ => none) wCard objs = Except.ok as2 ∧
        List.Forall₂
          (fun o a => Attachment.from_json (fun _ => none) wCard o = Except.ok a)
          objs as2) :=
  attachment_from_json_verbatim (fun _ => none) wCard wAttachmentJson rfl

/-- C10: calling `__repr__` on any AttachmentPreview raises AttributeError
for `name`: `__init__` assigns only id, bytes, scaled, url, height and
width, and no code path (in particular not `Attachment.from_json`) ever
assigns `name`. -/
theorem attachmentpreview_repr_attribute_error (p : AttachmentPreview) :
    AttachmentPreview.repr p = Except.error (PyErr.attributeError "name") :=
  rfl

end Trello
